import Mathlib

/-!
Shallow embedding of the `smart_code_evaluation` backend
(`analyzer.py`, `mistakes.py`, `ai_detector.py`, `app.py`) together with
theorems settling the frozen claims about its specification.

Python strings are modelled as Lean `String`s, Python lists as Lean
`List`s, Python `int` counters as `Nat` (or `Int` where the source can go
negative), and Python `float` arithmetic as exact rational (`ℚ`)
arithmetic.  Functions keep the source names (leading underscores
dropped).
-/

/-! ## Python string primitives used throughout the backend -/

/-- The whitespace characters recognised by Python's `str.strip`,
`str.split` and `str.isspace` (ASCII range). -/
def isPySpace (c : Char) : Bool :=
  c = ' ' || c = '\t' || c = '\n' || c = '\r' || c = '\x0b' || c = '\x0c'

def pyLstripList (l : List Char) : List Char := l.dropWhile isPySpace

def pyStripList (l : List Char) : List Char :=
  ((l.dropWhile isPySpace).reverse.dropWhile isPySpace).reverse

/-- Python `str.strip()`. -/
def pyStrip (s : String) : String := String.mk (pyStripList s.toList)

/-- Python `str.lstrip()`. -/
def pyLstrip (s : String) : String := String.mk (pyLstripList s.toList)

/-- Substring containment, Python's `needle in hay`. -/
def listContainsSub (needle hay : List Char) : Bool :=
  hay.tails.any (fun t => needle.isPrefixOf t)

def strContainsSub (hay needle : String) : Bool :=
  listContainsSub needle.toList hay.toList

/-- Python's `c in line` for a single character. -/
def strContainsChar (hay : String) (c : Char) : Bool := hay.toList.contains c

/-- Python `str.startswith`. -/
def strStartsWith (s pre : String) : Bool := pre.toList.isPrefixOf s.toList

def pySplitAux : List Char → List Char → List String
  | [], acc => if acc = [] then [] else [String.mk acc.reverse]
  | c :: cs, acc =>
    if isPySpace c then
      if acc = [] then pySplitAux cs [] else String.mk acc.reverse :: pySplitAux cs []
    else pySplitAux cs (c :: acc)

/-- Python `str.split()` with no argument: split on whitespace runs,
dropping empty pieces. -/
def pySplit (s : String) : List String := pySplitAux s.toList []

/-- `line.split('=')[0]`: everything before the first `'='` (the whole
string when there is none). -/
def beforeFirstEq (s : String) : String := String.mk (s.toList.takeWhile (fun c => c ≠ '='))

/-- Python `str.replace(c, '')` for a single character. -/
def removeChar (s : String) (c : Char) : String := String.mk (s.toList.filter (fun x => x ≠ c))

/-! ## `analyzer.py` — `CodeAnalyzer` -/

def loop_keywords : List String := ["for", "while"]
def conditional_keywords : List String := ["if", "else", "elif"]
def function_keywords : List String := ["def", "void", "int", "float", "double", "char", "bool"]

/-- `CodeAnalyzer.complexity_map`: the dict `{0: "O(1)", 1: "O(n)",
2: "O(n²)", 3: "O(n³)", 4: "O(2ⁿ)"}` (only ever consulted at keys 0–4). -/
def complexity_map (k : Nat) : String :=
  if k = 0 then "O(1)"
  else if k = 1 then "O(n)"
  else if k = 2 then "O(n²)"
  else if k = 3 then "O(n³)"
  else "O(2ⁿ)"

/-- `CodeAnalyzer._estimate_complexity`. -/
def estimate_complexity (loops nested_loops max_depth : Nat) : String :=
  if loops = 0 then complexity_map 0
  else if nested_loops = 0 then complexity_map 1
  else if max_depth = 2 then complexity_map 2
  else if max_depth = 3 then complexity_map 3
  else complexity_map 4

/-- The analysis dictionary produced by `CodeAnalyzer` (template
`_create_analysis_template`, defaults included).  The source key
`variables` is rendered `variables_count`: `variables` is reserved
in Lean. -/
structure Analysis where
  total_lines : Nat := 0
  loops : Nat := 0
  nested_loops : Nat := 0
  conditionals : Nat := 0
  conditions_in_loops : Nat := 0
  functions : Nat := 0
  variables_count : Nat := 0
  total_statements : Nat := 0
  max_nesting_depth : Nat := 0
  complexity : String := "O(1)"
  error : Option String := none
deriving Repr, DecidableEq

def analysis_template : Analysis := {}

/-- `CodeAnalyzer._empty_analysis_result`. -/
def empty_analysis_result : Analysis := { error := some "Analysis failed" }

/-- `CodeAnalyzer._get_indent_level`: leading spaces divided by 4
(the source computes `len(line) - len(line.lstrip())`). -/
def get_indent_level (line : String) : Nat :=
  (line.toList.length - (pyLstripList line.toList).length) / 4

/-- `CodeAnalyzer._is_keyword_in_line`. -/
def is_keyword_in_line (line kw : String) : Bool :=
  (pySplit (pyStrip line)).any (fun w => w = kw)

/-- Loop state of `_analyze_python` (`current_indent` is never read in the
source and is omitted). -/
structure PyState where
  stack : List Nat := []
  in_loop : Bool := false
  loop_depth : Nat := 0
  function_depth : Nat := 0
  analysis : Analysis := {}

/-- The `while stack and indent_level < stack[-1]` de-indentation loop of
`_analyze_python`; the stack top is the list head. -/
def dedent : List Nat → Nat → Nat → Nat → List Nat × Nat × Nat
  | [], _, ld, fd => ([], ld, fd)
  | top :: rest, indent, ld, fd =>
    if indent < top then
      dedent rest indent (if ld > 0 then ld - 1 else ld) (if fd > 0 then fd - 1 else fd)
    else (top :: rest, ld, fd)

/-- The loop-keyword block of `_analyze_python`: `loops += 1` and, when
the new loop depth `ld'` exceeds 1, `nested_loops += 1` and
`max_nesting_depth = max(max_nesting_depth, loop_depth)`. -/
def py_loop_nesting_update (a : Analysis) (ld' : Nat) : Analysis :=
  let a' := { a with loops := a.loops + 1 }
  if ld' > 1 then
    { a' with nested_loops := a'.nested_loops + 1,
              max_nesting_depth := max a'.max_nesting_depth ld' }
  else a'

/-- The conditional-keyword block, identical in `_analyze_python` and in
`_analyze_c_cpp`: `conditionals += 1` and, inside a loop,
`conditions_in_loops += 1`. -/
def conditional_update (a : Analysis) (in_loop : Bool) : Analysis :=
  let a' := { a with conditionals := a.conditionals + 1 }
  if in_loop then { a' with conditions_in_loops := a'.conditions_in_loops + 1 } else a'

/-- The variable-assignment block of `_analyze_python`. -/
def py_assignment_update (a : Analysis) (line : String) : Analysis :=
  if strContainsChar line '=' &&
     !(["if", "for", "while", "def"].any (fun kw => strContainsSub line kw)) then
    let left_side := pyStrip (beforeFirstEq line)
    if left_side ≠ "" && !(strStartsWith left_side "#") then
      { a with variables_count := a.variables_count + 1 }
    else a
  else a

/-- One iteration of the `for line in code_lines` loop of
`CodeAnalyzer._analyze_python`. -/
def python_line_step (st : PyState) (line : String) : PyState :=
  if pyStrip line = "" then st
  else
    let a0 := { st.analysis with total_lines := st.analysis.total_lines + 1 }
    let indent := get_indent_level line
    let d := dedent st.stack indent st.loop_depth st.function_depth
    let stack0 := d.1
    let ld0 := d.2.1
    let fd0 := d.2.2
    if strStartsWith (pyStrip line) "def " then
      { stack := indent :: stack0, in_loop := st.in_loop, loop_depth := ld0,
        function_depth := 1,
        analysis := { a0 with functions := a0.functions + 1 } }
    else
      let hasLoop := loop_keywords.any (fun kw => is_keyword_in_line line kw)
      let a1 := if hasLoop then py_loop_nesting_update a0 (ld0 + 1) else a0
      let inLoop1 := if hasLoop then true else st.in_loop
      let ld1 := if hasLoop then ld0 + 1 else ld0
      let stack1 := if hasLoop then indent :: stack0 else stack0
      let hasCond := conditional_keywords.any (fun kw => is_keyword_in_line line kw)
      let a2 := if hasCond then conditional_update a1 inLoop1 else a1
      let stack2 := if hasCond then indent :: stack1 else stack1
      let a3 := py_assignment_update a2 line
      { stack := stack2, in_loop := inLoop1, loop_depth := ld1, function_depth := fd0,
        analysis := a3 }

/-- `CodeAnalyzer._analyze_python`. -/
def analyze_python (code_lines : List String) : Analysis :=
  let st := code_lines.foldl python_line_step {}
  let a := st.analysis
  { a with complexity := estimate_complexity a.loops a.nested_loops a.max_nesting_depth }

/-! ### `CodeAnalyzer._tokenize_c_code`

The source walks the combined code character by character through an
`if`/`elif` chain whose second branch (`elif not in_string:`) claims every
character outside a string literal; only string-literal content ever
reaches the token-building branches. -/

/-- The recursion mirrors the `while i < len(code)` loop; `prev` is
`code[i-1]` (`none` at `i == 0`).  The source's inner
`while i < len(code) and code[i] != '\n'` that skips a `//` line comment
is rendered by the extra flag `in_line_skip`: both advance one character
at a time while touching no other state, and stop on the newline, which
is then processed by the main chain. -/
def tokenize_c_code_loop (code : List Char) (prev : Option Char) (current : List Char)
    (in_string : Bool) (string_char : Option Char) (in_comment : Bool)
    (in_line_skip : Bool) : List String :=
  match code with
  | [] => if current = [] then [] else [String.mk current]
  | c :: rest =>
    if in_line_skip && c ≠ '\n' then
      tokenize_c_code_loop rest (some c) current in_string string_char in_comment true
    else
    -- here `in_line_skip` implies `c = '\n'`: the skip ends and the
    -- newline goes through the ordinary chain
    if (c = '"' || c = '\x27') && !in_comment then
      if !in_string then
        (if current = [] then [] else [String.mk current]) ++
          tokenize_c_code_loop rest (some c) [c] true (some c) in_comment false
      else if some c = string_char && (prev = none || prev ≠ some '\\') then
        String.mk (current ++ [c]) ::
          tokenize_c_code_loop rest (some c) [] false string_char in_comment false
      else
        tokenize_c_code_loop rest (some c) (current ++ [c]) in_string string_char in_comment false
    else if !in_string then
      -- comment handling; note that a character that starts no comment is
      -- simply dropped here (the later tokenizing branches are unreachable
      -- outside strings)
      match rest with
      | c2 :: rest2 =>
        if c = '/' && c2 = '/' then
          -- start skipping to the end of the line
          tokenize_c_code_loop (c2 :: rest2) (some c) current in_string string_char in_comment true
        else if c = '/' && c2 = '*' then
          tokenize_c_code_loop rest2 (some '*') current in_string string_char true false
        else if c = '*' && c2 = '/' && in_comment then
          tokenize_c_code_loop rest2 (some '/') current in_string string_char false false
        else
          tokenize_c_code_loop (c2 :: rest2) (some c) current in_string string_char in_comment false
      | [] =>
        tokenize_c_code_loop [] (some c) current in_string string_char in_comment false
    else
      -- reachable only with in_string = true, exactly as in the source
      if !in_string && "\x7b\x7d();=<>!&|+-*/%".toList.contains c then
        (if current = [] then [] else [String.mk current]) ++ String.mk [c] ::
          tokenize_c_code_loop rest (some c) [] in_string string_char in_comment false
      else if isPySpace c then
        (if current = [] then [] else [String.mk current]) ++
          tokenize_c_code_loop rest (some c) [] in_string string_char in_comment false
      else
        tokenize_c_code_loop rest (some c) (current ++ [c]) in_string string_char in_comment false

/-- `CodeAnalyzer._tokenize_c_code`. -/
def tokenize_c_code (code : String) : List String :=
  tokenize_c_code_loop code.toList none [] false none false false

/-! ### `CodeAnalyzer._analyze_c_cpp` -/

/-- Loop state of `_analyze_c_cpp`. -/
structure CState where
  brace_count : Int := 0
  in_loop : Bool := false
  loop_depth : Int := 0
  function_depth : Int := 0
  last_keyword : Option String := none
  analysis : Analysis := {}

/-- The loop-keyword branch of `_analyze_c_cpp`: `loops += 1` and, when
already inside a loop (`loop_depth > 0`), `nested_loops += 1` and
`max_nesting_depth = max(max_nesting_depth, loop_depth + 1)`. -/
def c_loop_nesting_update (a : Analysis) (loop_depth : Int) : Analysis :=
  let a' := { a with loops := a.loops + 1 }
  if loop_depth > 0 then
    { a' with nested_loops := a'.nested_loops + 1,
              max_nesting_depth := max a'.max_nesting_depth (loop_depth + 1).toNat }
  else a'

/-- The inner `while k < len(tokens) and paren_count > 0` scan of the
function-definition lookahead: returns the token right after the scan
(`tokens[k]`), if any. -/
def afterParens (cnt : Int) (l : List String) : Option String :=
  if cnt ≤ 0 then l.head?
  else
    match l with
    | [] => none
    | x :: xs => afterParens (if x = "(" then cnt + 1 else if x = ")" then cnt - 1 else cnt) xs

/-- One iteration of the `while i < len(tokens)` loop of
`_analyze_c_cpp`; `rest` is the list of tokens after the current one
(used only by the function-definition lookahead, which does not advance
the loop index). -/
def c_token_step (st : CState) (t : String) (rest : List String) : CState :=
  if t = "\x7b" then { st with brace_count := st.brace_count + 1 }
  else if t = "\x7d" then
    let bc := st.brace_count - 1
    let ld := if bc < st.loop_depth then max 0 (st.loop_depth - 1) else st.loop_depth
    let fd := if bc < st.function_depth then max 0 (st.function_depth - 1) else st.function_depth
    { st with brace_count := bc, loop_depth := ld, function_depth := fd }
  else if function_keywords.contains t then
    -- look ahead for a function name, balanced parentheses and `{`
    match rest.dropWhile (fun x => x = "*") with
    | [] => st
    | tj :: rest' =>
      if strContainsChar tj '(' then
        if afterParens 1 rest' = some "\x7b" then
          { st with analysis := { st.analysis with functions := st.analysis.functions + 1 },
                    function_depth := st.brace_count + 1 }
        else st
      else st
  else if loop_keywords.contains t then
    { st with analysis := c_loop_nesting_update st.analysis st.loop_depth,
              in_loop := true, last_keyword := some t,
              loop_depth := st.loop_depth + 1 }
  else if t = "if" || t = "else" then
    { st with analysis := conditional_update st.analysis st.in_loop,
              last_keyword := some t }
  else if t = ";" then
    { st with analysis := { st.analysis with total_statements := st.analysis.total_statements + 1 } }
  else st

def c_token_loop (st : CState) : List String → CState
  | [] => st
  | t :: ts => c_token_loop (c_token_step st t ts) ts

/-- `CodeAnalyzer._analyze_c_cpp`. -/
def analyze_c_cpp (code_lines : List String) : Analysis :=
  let combined_code := String.intercalate " " code_lines
  let tokens := tokenize_c_code combined_code
  let st := c_token_loop {} tokens
  let a := st.analysis
  let a := { a with total_lines := code_lines.length }
  let a := { a with variables_count := a.variables_count +
      code_lines.countP (fun line =>
        strContainsChar line ';' && strContainsChar line '=' &&
        !(["for", "while", "if"].any (fun kw => strContainsSub line kw))) }
  { a with complexity := estimate_complexity a.loops a.nested_loops a.max_nesting_depth }

/-- `CodeAnalyzer.analyze_code` (the `try`/`except` wrapper cannot fire in
this total embedding). -/
def analyze_code (code_lines : List String) (language : String) : Analysis :=
  if code_lines = [] then empty_analysis_result
  else if language = "python" then analyze_python code_lines
  else analyze_c_cpp code_lines

/-! ## `mistakes.py` — `MistakeDetector` -/

/-- A mistake dictionary appended by one of the detection rules.  The
source key `type` is kept. -/
structure Finding where
  type : String
  problem : String
  why_bad : String
  solution : String
  learn_next : String
deriving Repr, DecidableEq

def thresholds_max_nested_loops : Nat := 2
def thresholds_max_conditions_per_function : Nat := 5
def thresholds_max_function_lines : Nat := 50
def thresholds_max_indentation_level : Nat := 4
def thresholds_max_magic_numbers : Nat := 3

/-- `MistakeDetector._check_nested_loops`. -/
def check_nested_loops (analysis : Analysis) : List Finding :=
  if analysis.nested_loops > 0 then
    let depth := analysis.max_nesting_depth
    if depth > thresholds_max_nested_loops then
      [{ type := "NESTED_LOOPS",
         problem := "Code has " ++ toString depth ++ " levels of nested loops",
         why_bad := "Deep nesting makes code hard to read and maintain. It increases complexity and reduces performance.",
         solution := "Try to flatten your logic or break into functions. Consider using built-in functions like map() or list comprehensions.",
         learn_next := "Learn about algorithmic optimization and refactoring techniques." }]
    else []
  else []

/-- `MistakeDetector._check_too_many_conditions`. -/
def check_too_many_conditions (analysis : Analysis) : List Finding :=
  let conditions := analysis.conditionals
  if conditions > thresholds_max_conditions_per_function then
    [{ type := "TOO_MANY_CONDITIONS",
       problem := "Function has " ++ toString conditions ++ " if/else statements",
       why_bad := "Too many conditions make code hard to follow and test. It indicates complex business logic that should be simplified.",
       solution := "Use switch/case statements, lookup tables, or strategy pattern. Consider breaking into smaller functions.",
       learn_next := "Learn about design patterns and refactoring techniques." }]
  else []

/-- `MistakeDetector._check_long_functions`. -/
def check_long_functions (analysis : Analysis) : List Finding :=
  let lines := analysis.total_lines
  let functions := analysis.functions
  if lines > thresholds_max_function_lines && functions ≤ 1 then
    [{ type := "LONG_FUNCTION",
       problem := "Code has " ++ toString lines ++ " lines in main function/script",
       why_bad := "Long functions are hard to read, test, and maintain. They often do too many things.",
       solution := "Break the function into smaller, focused functions. Each function should do one thing well.",
       learn_next := "Learn about Single Responsibility Principle and function decomposition." }]
  else []

/-- The variable-candidate collection pass of
`MistakeDetector._check_unused_variables_python`. -/
def py_unused_candidates (code_lines : List String) : List String :=
  code_lines.filterMap (fun line =>
    let stripped := pyStrip line
    if ["def ", "for ", "while ", "if ", "elif ", "else:"].any
        (fun kw => strContainsSub stripped kw) then none
    else if strContainsChar stripped '=' && !(strContainsSub stripped "==") then
      let left_side := pyStrip (beforeFirstEq stripped)
      if !(strContainsChar left_side ',') && !(strContainsChar left_side ' ') then
        some left_side
      else none
    else none)

/-- The declaration/usage scan of `_check_unused_variables_python` for one
variable: returns `(found_declaration, usage_count)`. -/
def py_var_scan (code_lines : List String) (var : String) : Bool × Nat :=
  code_lines.foldl
    (fun st line =>
      if !st.1 then
        if strContainsSub line (var ++ " =") || strContainsSub line (var ++ "=") then
          (true, st.2)
        else st
      else
        if strContainsSub line var &&
           !(strContainsSub line (var ++ " =") || strContainsSub line (var ++ "=")) then
          (st.1, st.2 + 1)
        else st)
    (false, 0)

/-- `MistakeDetector._check_unused_variables_python`. -/
def check_unused_variables_python (code_lines : List String) : List Finding :=
  (py_unused_candidates code_lines).filterMap (fun var =>
    let scan := py_var_scan code_lines var
    if scan.1 && scan.2 = 0 then
      some { type := "UNUSED_VARIABLE",
             problem := "Variable \"" ++ var ++ "\" is declared but never used",
             why_bad := "Unused variables waste memory and make code confusing. They indicate incomplete refactoring or dead code.",
             solution := "Remove the variable \"" ++ var ++ "\" or use it in your logic.",
             learn_next := "Learn about code cleanup and the DRY (Don\x27t Repeat Yourself) principle." }
    else none)

/-- The candidate collection pass of
`MistakeDetector._check_unused_variables_c_cpp`. -/
def c_unused_candidates (code_lines : List String) : List String :=
  code_lines.filterMap (fun line =>
    let stripped := pyStrip line
    if !(strContainsChar stripped ';') then none
    else if strContainsSub stripped "int " || strContainsSub stripped "float " ||
            strContainsSub stripped "double " || strContainsSub stripped "char " then
      let parts := pySplit (removeChar stripped ';')
      if parts.length ≥ 2 then
        match parts.getLast? with
        | some var_name =>
          some (if strContainsChar var_name '=' then beforeFirstEq var_name else var_name)
        | none => none
      else none
    else none)

/-- The declaration/usage scan of `_check_unused_variables_c_cpp` for one
variable. -/
def c_var_scan (code_lines : List String) (var : String) : Bool × Nat :=
  code_lines.foldl
    (fun st line =>
      let line_clean := pyStrip line
      if !st.1 then
        if strContainsSub line_clean (var ++ ";") || strContainsSub line_clean (var ++ " =") ||
           strContainsSub line_clean (var ++ "=") then
          (true, st.2)
        else st
      else
        if strContainsSub line_clean var &&
           !([var ++ ";", var ++ " =", var ++ "="].any
              (fun pat => strContainsSub line_clean pat)) then
          (st.1, st.2 + 1)
        else st)
    (false, 0)

/-- `MistakeDetector._check_unused_variables_c_cpp`. -/
def check_unused_variables_c_cpp (code_lines : List String) : List Finding :=
  (c_unused_candidates code_lines).filterMap (fun var =>
    let scan := c_var_scan code_lines var
    if scan.1 && scan.2 = 0 && var.length > 1 then
      some { type := "UNUSED_VARIABLE",
             problem := "Variable \"" ++ var ++ "\" is declared but never used",
             why_bad := "Unused variables indicate dead code and waste resources.",
             solution := "Remove \"" ++ var ++ "\" or implement its usage.",
             learn_next := "Learn about memory management and code optimization." }
    else none)

/-- `MistakeDetector._check_unused_variables`. -/
def check_unused_variables (code_lines : List String) (language : String) : List Finding :=
  if language = "python" then check_unused_variables_python code_lines
  else check_unused_variables_c_cpp code_lines

/-- `MistakeDetector._check_deep_indentation`; the fold carries
`(current line index, max_indent, line_number)`. -/
def check_deep_indentation (code_lines : List String) (language : String) : List Finding :=
  if language ≠ "python" then []
  else
    let final := code_lines.foldl
      (fun (st : Nat × Nat × Nat) line =>
        let i := st.1 + 1
        if pyStrip line = "" then (i, st.2.1, st.2.2)
        else
          let leading_spaces := line.toList.length - (pyLstripList line.toList).length
          let indent_level := leading_spaces / 4
          if indent_level > st.2.1 then (i, indent_level, i) else (i, st.2.1, st.2.2))
      (0, 0, 0)
    let max_indent := final.2.1
    let line_number := final.2.2
    if max_indent > thresholds_max_indentation_level then
      [{ type := "DEEP_INDENTATION",
         problem := "Code has " ++ toString max_indent ++ " levels of indentation (line " ++
           toString line_number ++ ")",
         why_bad := "Deep indentation (pyramid code) is hard to read and maintain. It often indicates too much nesting.",
         solution := "Flatten your code by using early returns, breaking into functions, or using guard clauses.",
         learn_next := "Learn about code flattening techniques and clean code principles." }]
    else []

/-! ### `MistakeDetector._check_magic_numbers` and `_is_number` -/

def isPyDigit (c : Char) : Bool := '0' ≤ c && c ≤ '9'

/-- Consume the rest of a Python float `digitpart` after its first digit:
digits with single underscores allowed between digits. -/
def parseDigitRest : List Char → List Char
  | [] => []
  | c :: rest =>
    if isPyDigit c then parseDigitRest rest
    else if c = '_' then
      match rest with
      | d :: rest2 => if isPyDigit d then parseDigitRest rest2 else c :: d :: rest2
      | [] => [c]
    else c :: rest

/-- Parse a Python float `digitpart` (at least one digit); returns the
remaining characters on success. -/
def parseDigitPart (l : List Char) : Option (List Char) :=
  match l with
  | c :: rest => if isPyDigit c then some (parseDigitRest rest) else none
  | [] => none

/-- Parse an exponent `("e"|"E") [sign] digitpart`. -/
def parseExponent (l : List Char) : Option (List Char) :=
  match l with
  | c :: rest =>
    if c = 'e' || c = 'E' then
      match rest with
      | s :: r2 => if s = '+' || s = '-' then parseDigitPart r2 else parseDigitPart rest
      | [] => none
    else none
  | [] => none

/-- Whether `l` (lower-cased, sign already removed) is accepted by
Python's `float()`. -/
def pyFloatBody (l : List Char) : Bool :=
  let lower := l.map Char.toLower
  if lower = "inf".toList || lower = "infinity".toList || lower = "nan".toList then true
  else
    match parseDigitPart lower with
    | some rest =>
      let afterFrac :=
        match rest with
        | '.' :: r2 =>
          match parseDigitPart r2 with
          | some r3 => r3
          | none => r2
        | _ => rest
      afterFrac = [] || parseExponent afterFrac = some []
    | none =>
      match lower with
      | '.' :: r2 =>
        match parseDigitPart r2 with
        | some r => r = [] || parseExponent r = some []
        | none => false
      | _ => false

/-- `MistakeDetector._is_number`: whether Python's `float(s)` succeeds
(ASCII view; `float()` ignores surrounding whitespace). -/
def is_number (s : String) : Bool :=
  match pyStripList s.toList with
  | c :: rest => if c = '+' || c = '-' then pyFloatBody rest else pyFloatBody (c :: rest)
  | [] => false

/-- The magic-number collection pass of `_check_magic_numbers`: all
whitespace-split tokens parseable as a float and not on the allow-list. -/
def magic_number_tokens (code_lines : List String) : List String :=
  (code_lines.map (fun line =>
    (pySplit line).filter (fun w =>
      is_number w && !(["0", "1", "2", "10", "100", "1000"].contains w)))).flatten

/-- First-occurrence deduplication, standing in for the source's
`list(set(...))` whose iteration order Python leaves unspecified. -/
def dedupFirst (l : List String) (seen : List String := []) : List String :=
  match l with
  | [] => []
  | x :: xs => if seen.contains x then dedupFirst xs seen else x :: dedupFirst xs (x :: seen)

/-- `MistakeDetector._check_magic_numbers` (the unused `language`
parameter is kept). -/
def check_magic_numbers (code_lines : List String) (language : String) : List Finding :=
  let magic_numbers := magic_number_tokens code_lines
  if magic_numbers.length > thresholds_max_magic_numbers then
    let unique_numbers := (dedupFirst magic_numbers).take 5
    [{ type := "MAGIC_NUMBERS",
       problem := "Found " ++ toString magic_numbers.length ++ " magic numbers: " ++
         String.intercalate ", " unique_numbers ++ "...",
       why_bad := "Magic numbers make code hard to understand and maintain. Their meaning is not clear without context.",
       solution := "Replace magic numbers with named constants or variables with descriptive names.",
       learn_next := "Learn about constants and configuration management." }]
  else []

/-- `MistakeDetector.detect_mistakes`.  The `analysis_results` record of
this embedding corresponds to a non-empty Python dict, so only the
`code_lines` emptiness guard remains; the `try`/`except` cannot fire. -/
def detect_mistakes (code_lines : List String) (language : String)
    (analysis_results : Analysis) : List Finding :=
  if code_lines = [] then []
  else
    check_nested_loops analysis_results
    ++ check_too_many_conditions analysis_results
    ++ check_long_functions analysis_results
    ++ check_unused_variables code_lines language
    ++ check_deep_indentation code_lines language
    ++ check_magic_numbers code_lines language

/-! ## `ai_detector.py` — `AIDetector`

The detector's helpers use `re.search` with a small, fixed repertoire of
regex constructs: literal characters, `.`, `\s`, `\w`, `\d`, `*` on a
single atom, the word boundary `\b` and the end anchor `$`.  A tiny
backtracking matcher over exactly these constructs embeds them. -/

/-- A single-character regex atom. -/
inductive RAtom where
  | lit (c : Char)
  | anyChar
  | space
  | word
  | digit
deriving Repr, DecidableEq

/-- One regex token: an atom, a starred atom, `\b`, or `$`. -/
inductive RTok where
  | a (x : RAtom)
  | star (x : RAtom)
  | wb
  | eol
deriving Repr, DecidableEq

/-- `\w` (ASCII view). -/
def isWordChar (c : Char) : Bool :=
  ('a' ≤ c && c ≤ 'z') || ('A' ≤ c && c ≤ 'Z') || isPyDigit c || c = '_'

def atomMatches (ignoreCase : Bool) : RAtom → Char → Bool
  | .lit c, x => if ignoreCase then x.toLower = c.toLower else x = c
  | .anyChar, x => x ≠ '\n'
  | .space, x => isPySpace x
  | .word, x => isWordChar x
  | .digit, x => isPyDigit x

def boolOfWord : Option Char → Bool
  | none => false
  | some c => isWordChar c

/-- Match a pattern at the start of `s`; `prev` is the character before
the current position (for `\b`).  `$` matches at the end of the subject
or just before a terminating newline, as in `re.search` without
`MULTILINE`.  Every recursive call shrinks `p.length + s.length`, so with
initial fuel `p.length + s.length + 1` the fuel-exhausted case is
unreachable; the fuel only makes the recursion structural. -/
def matchSeq (ic : Bool) : Nat → List RTok → List Char → Option Char → Bool
  | 0, p, _, _ => p.isEmpty
  | _ + 1, [], _, _ => true
  | fuel + 1, .a x :: ps, s, _ =>
    match s with
    | c :: rest => atomMatches ic x c && matchSeq ic fuel ps rest (some c)
    | [] => false
  | fuel + 1, .star x :: ps, s, prev =>
    matchSeq ic fuel ps s prev ||
      (match s with
       | c :: rest => atomMatches ic x c && matchSeq ic fuel (.star x :: ps) rest (some c)
       | [] => false)
  | fuel + 1, .wb :: ps, s, prev =>
    (boolOfWord prev ≠ (match s with | [] => false | c :: _ => isWordChar c)) &&
      matchSeq ic fuel ps s prev
  | fuel + 1, .eol :: ps, s, prev =>
    (s = [] || s = ['\n']) && matchSeq ic fuel ps s prev

def reSearchAux (ic : Bool) (p : List RTok) : List Char → Option Char → Bool
  | s, prev =>
    matchSeq ic (p.length + s.length + 1) p s prev ||
      (match s with
       | [] => false
       | c :: rest => reSearchAux ic p rest (some c))

/-- Python `re.search(pattern, s)` (with optional `re.IGNORECASE`):
does the pattern match at some position? -/
def re_search (ic : Bool) (p : List RTok) (s : String) : Bool :=
  reSearchAux ic p s.toList none

/-- Literal characters of a pattern. -/
def lits (s : String) : List RTok := s.toList.map (fun c => .a (.lit c))

/-- `X+` is rendered as atom followed by starred atom. -/
def plusTok (x : RAtom) : List RTok := [.a x, .star x]

/-- `r'\bWORD\b'`. -/
def word_pat (w : String) : List RTok := [.wb] ++ lits w ++ [.wb]

/-- `AIDetector._check_variable_naming`'s `perfect_patterns`. -/
def perfect_patterns : List (List RTok) :=
  [word_pat "index", word_pat "counter", word_pat "result", word_pat "temp",
   word_pat "value", word_pat "data", word_pat "input", word_pat "output"]

/-- `r'def\s+\w+\(.*\):'`. -/
def python_func_pattern : List RTok :=
  lits "def" ++ plusTok .space ++ plusTok .word ++ lits "(" ++ [.star .anyChar] ++ lits "):"

/-- `r'\w+\s+\w+\(.*\)\s*{'`. -/
def c_func_pattern : List RTok :=
  plusTok .word ++ plusTok .space ++ plusTok .word ++ lits "(" ++ [.star .anyChar] ++
    lits ")" ++ [.star .space] ++ lits "\x7b"

/-- `AIDetector._check_function_structure`'s `textbook_patterns`. -/
def textbook_patterns : List (List RTok) :=
  [lits "def" ++ plusTok .space ++ lits "main():",
   lits "int" ++ plusTok .space ++ lits "main()",
   lits "void" ++ plusTok .space ++ lits "setup()",
   lits "def" ++ plusTok .space ++ lits "calculate_",
   lits "def" ++ plusTok .space ++ lits "process_"]

/-- `AIDetector._calculate_pattern_repetition`'s `ai_patterns`. -/
def ai_patterns : List (List RTok) :=
  [lits "for" ++ [.star .anyChar] ++ lits "in range(" ++ [.star .anyChar] ++ lits "):",
   lits "for(" ++ [.star .anyChar] ++ lits ";" ++ [.star .anyChar] ++ lits ";" ++
     [.star .anyChar] ++ lits ")" ++ [.star .space] ++ lits "\x7b",
   lits "if" ++ [.star .anyChar] ++ lits ":" ++ [.star .space] ++ [.eol],
   lits "def" ++ plusTok .space ++ plusTok .word ++ lits "(self," ++ [.star .anyChar] ++ lits "):",
   lits "print(f\"" ++ [.star .anyChar] ++ lits "\")",
   lits "return" ++ plusTok .space ++ plusTok .word,
   lits "int" ++ plusTok .space ++ plusTok .word ++ [.star .space] ++ lits "=" ++
     [.star .space] ++ plusTok .digit ++ lits ";"]

/-- `AIDetector._calculate_comment_ratio`. -/
def calculate_comment_ratio (code_lines : List String) (language : String) : ℚ :=
  let total_lines := code_lines.length
  if total_lines = 0 then 0
  else
    let comment_count := code_lines.countP (fun line =>
      let stripped := pyStrip line
      if language = "python" then strStartsWith stripped "#"
      else strStartsWith stripped "//" || strContainsSub stripped "/*")
    (comment_count : ℚ) / (total_lines : ℚ)

/-- `AIDetector._check_variable_naming`. -/
def check_variable_naming (code_lines : List String) (language : String) : ℚ :=
  let variable_names := code_lines.filterMap (fun line =>
    if strContainsChar line '=' && !(strContainsSub line "==") then
      (pySplit (pyStrip (beforeFirstEq line))).getLast?
    else none)
  if variable_names = [] then 0
  else
    let perfect_count := variable_names.countP (fun v =>
      perfect_patterns.any (fun p => re_search true p v))
    (perfect_count : ℚ) / (variable_names.length : ℚ)

/-- `AIDetector._check_function_structure`. -/
def check_function_structure (code_lines : List String) (language : String) : ℚ :=
  let func_pattern := if language = "python" then python_func_pattern else c_func_pattern
  let func_lines := code_lines.filter (fun line => re_search false func_pattern line)
  if func_lines = [] then 0
  else
    let perfect_count := func_lines.countP (fun line =>
      textbook_patterns.any (fun p => re_search true p line))
    (perfect_count : ℚ) / (func_lines.length : ℚ)

/-- `AIDetector._check_formatting_consistency`. -/
def check_formatting_consistency (code_lines : List String) : ℚ :=
  if code_lines.length < 3 then 0
  else
    let indent_lengths := (code_lines.filter (fun line => pyStrip line ≠ "")).map
      (fun line => ((line.toList.length - (pyLstripList line.toList).length : Nat) : ℚ))
    if indent_lengths = [] then 0
    else
      let n : ℚ := indent_lengths.length
      let mean := indent_lengths.sum / n
      let variance := (indent_lengths.map (fun x => (x - mean) ^ 2)).sum / n
      1 - min (variance / 4) 1

/-- `AIDetector._calculate_perfection_score` (`metrics_checked` is
always 3). -/
def calculate_perfection_score (code_lines : List String) (language : String) : ℚ :=
  (check_variable_naming code_lines language +
   check_function_structure code_lines language +
   check_formatting_consistency code_lines) / 3

/-- `AIDetector._calculate_complexity_mismatch`'s `expected_complexity`
dict.  The intermediate/advanced values are written with the exact
characters present in the source file, whose `²`/`³`/`ⁿ` bytes are
mojibake-corrupted to `Â²` (U+00C2 U+00B2), `Â³` and `â¿`. -/
def expected_complexity (skill_level : String) : String :=
  if skill_level = "beginner" then "O(n)"
  else if skill_level = "intermediate" then "O(nÂ²)"
  else if skill_level = "advanced" then "O(nÂ³)"
  else "O(n)"

/-- `_calculate_complexity_mismatch`'s `complexity_scores` dict with
`.get(_, 1)` default; the quadratic/cubic/exponential keys carry the
source file's mojibake-corrupted characters. -/
def complexity_scores (c : String) : Int :=
  if c = "O(1)" then 1
  else if c = "O(n)" then 2
  else if c = "O(nÂ²)" then 3
  else if c = "O(nÂ³)" then 4
  else if c = "O(2â¿)" then 5
  else 1

/-- `AIDetector._calculate_complexity_mismatch`. -/
def calculate_complexity_mismatch (analysis : Analysis) (skill_level : String) : ℚ :=
  let complexity := analysis.complexity
  let nested_loops := analysis.nested_loops
  let functions := analysis.functions
  let expected := expected_complexity skill_level
  let actual_score := complexity_scores complexity
  let expected_score := complexity_scores expected
  let mismatch : ℚ :=
    if actual_score > expected_score + 1 then
      min (((actual_score - expected_score : Int) : ℚ) / 3) 1
    else 0
  let mismatch := if skill_level = "beginner" && nested_loops > 1 then mismatch + 3/10 else mismatch
  let mismatch := if skill_level = "beginner" && functions > 2 then mismatch + 1/5 else mismatch
  min mismatch 1

/-- `AIDetector._calculate_pattern_repetition`. -/
def calculate_pattern_repetition (code_lines : List String) : ℚ :=
  if code_lines.length < 5 then 0
  else
    let counts := ai_patterns.map (fun p =>
      code_lines.countP (fun line => re_search false p line))
    let total_patterns := counts.sum
    if total_patterns = 0 then 0
    else
      let repetition_score :=
        ((counts.filter (fun c => c ≠ 0)).map (fun c => ((c - 1 : Nat) : ℚ) * (1/5))).sum
      min repetition_score 1

/-- `AIDetector._calculate_confidence` with its four scores and weights
`[0.3, 0.3, 0.25, 0.15]`. -/
def calculate_confidence (s1 s2 s3 s4 : ℚ) : ℚ :=
  let confidence :=
    ((List.zip [s1, s2, s3, s4] [(3 : ℚ)/10, 3/10, 1/4, 3/20]).foldl
      (fun acc sw => acc + sw.1 * sw.2) 0)
  min confidence 1

def thresholds_comment_ratio : ℚ := 3/10
def thresholds_perfection_score : ℚ := 4/5
def thresholds_complexity_mismatch : ℚ := 7/10
def thresholds_pattern_repetition : ℚ := 3/5

/-- The result dict of `AIDetector.detect_ai_patterns` (initial values as
in the source).  Numeric interpolations inside the explanation strings
are rendered with `toString`. -/
structure AIDetectionResult where
  is_suspicious : Bool := false
  confidence : ℚ := 0
  detected_patterns : List String := []
  explanations : List String := []
  recommendations : List String := []
deriving Repr, DecidableEq

/-- `AIDetector.detect_ai_patterns` (the `try`/`except` cannot fire in
this total embedding). -/
def detect_ai_patterns (code_lines : List String) (language : String)
    (analysis : Analysis) (skill_level : String) : AIDetectionResult :=
  let comment_ratio := calculate_comment_ratio code_lines language
  let perfection_score := calculate_perfection_score code_lines language
  let complexity_mismatch := calculate_complexity_mismatch analysis skill_level
  let pattern_score := calculate_pattern_repetition code_lines
  let p1 :=
    if comment_ratio > thresholds_comment_ratio then
      (["HIGH_COMMENT_RATIO"],
       ["Code has " ++ toString comment_ratio ++ " comments. AI often adds excessive comments."])
    else ([], [])
  let p2 :=
    if perfection_score > thresholds_perfection_score then
      (["TOO_PERFECT"],
       ["Code structure is very perfect (score: " ++ toString perfection_score ++
        "). AI generates flawlessly formatted code."])
    else ([], [])
  let p3 :=
    if complexity_mismatch > thresholds_complexity_mismatch then
      (["COMPLEXITY_MISMATCH"],
       ["Code complexity doesn\x27t match " ++ skill_level ++
        " skill level. AI can write advanced code easily."])
    else ([], [])
  let p4 :=
    if pattern_score > thresholds_pattern_repetition then
      (["REPETITIVE_PATTERNS"], ["Code shows repetitive AI-like patterns."])
    else ([], [])
  let suspicious_patterns := p1.1 ++ p2.1 ++ p3.1 ++ p4.1
  let explanations := p1.2 ++ p2.2 ++ p3.2 ++ p4.2
  if suspicious_patterns ≠ [] then
    { is_suspicious := true,
      confidence := calculate_confidence comment_ratio perfection_score
        complexity_mismatch pattern_score,
      detected_patterns := suspicious_patterns,
      explanations := explanations,
      recommendations :=
        ["Write code in your own style, not perfect textbook style",
         "Add personal comments explaining YOUR thought process",
         "Make small human-like variations in your code",
         "Don\x27t copy patterns exactly - add your own twist"] }
  else
    { is_suspicious := false, confidence := 0, detected_patterns := [],
      explanations := explanations, recommendations := [] }

/-! ## `app.py` — request validation of the analysis endpoints -/

/-- The guard clauses of the `/analyze-old` endpoint (`analyze_old`):
the error returned before any analysis runs, if any. -/
def analyze_old_gate (code : String) : Option String :=
  if code = "" then some "No code provided"
  else if code.length > 10000 then some "Code too large (max 10000 characters)"
  else none

/-- The guard clauses of the `/analyze` endpoint (`analyze_code` in
`app.py`). -/
def analyze_endpoint_gate (code : String) : Option String :=
  if code = "" then some "No code provided"
  else if code.length > 10000 then some "Code too large (max 10000 characters)"
  else none

/-! ## Concrete inputs used by the claim theorems -/

/-- A C program with a triple-nested `for` loop and an `if` inside the
innermost loop (already split into cleaned lines). -/
def c1_input : List String :=
  ["int main() \x7b",
   "    for (int i = 0; i < n; i++) \x7b",
   "        for (int j = 0; j < n; j++) \x7b",
   "            for (int k = 0; k < n; k++) \x7b",
   "                if (i + j + k > 0) \x7b",
   "                    count = count + 1;",
   "                \x7d",
   "            \x7d",
   "        \x7d",
   "    \x7d",
   "    return 0;",
   "\x7d"]

/-- Two Python assignments, each declaring a variable that is never used
afterwards. -/
def c4_lines : List String := ["alpha = 1", "beta = 2"]

/-- A request body of 10,001 characters. -/
def c5_code : String := String.mk (List.replicate 10001 'a')

/-- Ten Python lines: two comments and eight non-comment lines with no
assignments, no `def`s and no AI-pattern matches; every AI sub-score is
below its threshold but the comment ratio (1/5) is strictly positive. -/
def c6_lines : List String :=
  ["# c1", "# c2", "x(1)", "y(2)", "z(3)", "w(4)", "q(5)", "r(6)", "s(7)", "t(8)"]

/-- A metrics record carrying the analyzer's actual cubic label
`"O(n³)"` (well-formed UTF-8, as produced by `complexity_map 3`). -/
def c8_analysis : Analysis := { complexity := "O(n³)", nested_loops := 0, functions := 0 }

/-- The invariant of claim C3 on a metrics record. -/
def metricsInv (a : Analysis) : Prop :=
  a.nested_loops ≤ a.loops ∧ (0 < a.nested_loops → 2 ≤ a.max_nesting_depth)

/-! ## Helper lemmas -/

theorem foldl_preserve {α σ : Type _} (P : σ → Prop) (f : σ → α → σ)
    (h : ∀ s a, P s → P (f s a)) : ∀ (l : List α) (s : σ), P s → P (l.foldl f s) := by
  intro l
  induction l with
  | nil => intro s hs; simpa using hs
  | cons x xs ih => intro s hs; exact ih _ (h _ _ hs)

theorem check_nested_loops_length (a : Analysis) : (check_nested_loops a).length ≤ 1 := by
  unfold check_nested_loops; dsimp only; split_ifs <;> simp

theorem check_too_many_conditions_length (a : Analysis) :
    (check_too_many_conditions a).length ≤ 1 := by
  unfold check_too_many_conditions; dsimp only; split_ifs <;> simp

theorem check_long_functions_length (a : Analysis) : (check_long_functions a).length ≤ 1 := by
  unfold check_long_functions; dsimp only; split_ifs <;> simp

theorem check_deep_indentation_length (code_lines : List String) (language : String) :
    (check_deep_indentation code_lines language).length ≤ 1 := by
  unfold check_deep_indentation; dsimp only; split_ifs <;> simp

theorem check_magic_numbers_length (code_lines : List String) (language : String) :
    (check_magic_numbers code_lines language).length ≤ 1 := by
  unfold check_magic_numbers; dsimp only; split_ifs <;> simp

theorem check_nested_loops_types (a : Analysis) :
    ∀ m ∈ check_nested_loops a, m.type = "NESTED_LOOPS" := by
  unfold check_nested_loops; dsimp only; split_ifs <;> intro m hm <;> simp_all

theorem check_too_many_conditions_types (a : Analysis) :
    ∀ m ∈ check_too_many_conditions a, m.type = "TOO_MANY_CONDITIONS" := by
  unfold check_too_many_conditions; dsimp only; split_ifs <;> intro m hm <;> simp_all

theorem check_long_functions_types (a : Analysis) :
    ∀ m ∈ check_long_functions a, m.type = "LONG_FUNCTION" := by
  unfold check_long_functions; dsimp only; split_ifs <;> intro m hm <;> simp_all

theorem check_deep_indentation_types (code_lines : List String) (language : String) :
    ∀ m ∈ check_deep_indentation code_lines language, m.type = "DEEP_INDENTATION" := by
  unfold check_deep_indentation; dsimp only; split_ifs <;> intro m hm <;> simp_all

theorem check_magic_numbers_types (code_lines : List String) (language : String) :
    ∀ m ∈ check_magic_numbers code_lines language, m.type = "MAGIC_NUMBERS" := by
  unfold check_magic_numbers; dsimp only; split_ifs <;> intro m hm <;> simp_all

theorem check_unused_variables_python_types (code_lines : List String) :
    ∀ m ∈ check_unused_variables_python code_lines, m.type = "UNUSED_VARIABLE" := by
  intro m hm
  unfold check_unused_variables_python at hm
  simp only [List.mem_filterMap] at hm
  obtain ⟨v, -, he⟩ := hm
  split_ifs at he
  exact (Option.some.injEq _ _ ▸ he) ▸ rfl

theorem check_unused_variables_c_cpp_types (code_lines : List String) :
    ∀ m ∈ check_unused_variables_c_cpp code_lines, m.type = "UNUSED_VARIABLE" := by
  intro m hm
  unfold check_unused_variables_c_cpp at hm
  simp only [List.mem_filterMap] at hm
  obtain ⟨v, -, he⟩ := hm
  split_ifs at he
  exact (Option.some.injEq _ _ ▸ he) ▸ rfl

theorem check_unused_variables_types (code_lines : List String) (language : String) :
    ∀ m ∈ check_unused_variables code_lines language, m.type = "UNUSED_VARIABLE" := by
  intro m hm
  unfold check_unused_variables at hm
  split_ifs at hm
  · exact check_unused_variables_python_types code_lines m hm
  · exact check_unused_variables_c_cpp_types code_lines m hm

theorem countP_eq_zero_of_types (l : List Finding) (T t : String)
    (hT : ∀ m ∈ l, m.type = T) (h : ¬ (T = t)) :
    l.countP (fun m => m.type = t) = 0 := by
  rw [List.countP_eq_zero]
  intro m hm
  simp [hT m hm, h]

/-! ## The claims -/

set_option maxRecDepth 100000 in
/-- **C1.**  The claim says a C program with a triple-nested `for` loop
and an `if` in the innermost loop analyses to `max_nesting_depth = 3`,
complexity `"O(n³)"` and a `NESTED_LOOPS` finding.  The code disagrees:
the `elif not in_string:` comment branch of `_tokenize_c_code` consumes
every character outside a string literal, so the tokenizer returns no
token at all, the analysis counts no loop, the complexity is `"O(1)"`
and no mistake is reported. -/
theorem claim_C1_tokenizer_drops_c_code :
    tokenize_c_code (String.intercalate " " c1_input) = [] ∧
    (analyze_code c1_input "c").loops = 0 ∧
    (analyze_code c1_input "c").max_nesting_depth = 0 ∧
    (analyze_code c1_input "c").complexity = "O(1)" ∧
    detect_mistakes c1_input "c" (analyze_code c1_input "c") = [] := by
  decide

set_option maxRecDepth 10000 in
/-- **C4 (counterexample).**  The claim says each rule contributes at most
one finding, so the result never holds two findings of the same type.  On
two unused variables the unused-variable rule appends one finding per
variable: the result holds two `UNUSED_VARIABLE` findings. -/
theorem claim_C4_counterexample :
    ((detect_mistakes c4_lines "python" (analyze_code c4_lines "python")).countP
      (fun m => m.type = "UNUSED_VARIABLE")) = 2 := by
  decide

/-- **C4 (amended).**  Each of the five rules other than the
unused-variable rule contributes at most one finding per run, so for each
of their five types the result holds at most one finding of that type;
only `UNUSED_VARIABLE` findings can repeat (one per unused variable). -/
theorem claim_C4_amended (code_lines : List String) (language : String) (a : Analysis) :
    ((detect_mistakes code_lines language a).countP (fun m => m.type = "NESTED_LOOPS") ≤ 1) ∧
    ((detect_mistakes code_lines language a).countP (fun m => m.type = "TOO_MANY_CONDITIONS") ≤ 1) ∧
    ((detect_mistakes code_lines language a).countP (fun m => m.type = "LONG_FUNCTION") ≤ 1) ∧
    ((detect_mistakes code_lines language a).countP (fun m => m.type = "DEEP_INDENTATION") ≤ 1) ∧
    ((detect_mistakes code_lines language a).countP (fun m => m.type = "MAGIC_NUMBERS") ≤ 1) := by
  unfold detect_mistakes
  split_ifs
  · simp
  · refine ⟨?_, ?_, ?_, ?_, ?_⟩
    · simp only [List.countP_append]
      rw [countP_eq_zero_of_types _ "TOO_MANY_CONDITIONS" _ (check_too_many_conditions_types a) (by decide),
        countP_eq_zero_of_types _ "LONG_FUNCTION" _ (check_long_functions_types a) (by decide),
        countP_eq_zero_of_types _ "UNUSED_VARIABLE" _ (check_unused_variables_types code_lines language) (by decide),
        countP_eq_zero_of_types _ "DEEP_INDENTATION" _ (check_deep_indentation_types code_lines language) (by decide),
        countP_eq_zero_of_types _ "MAGIC_NUMBERS" _ (check_magic_numbers_types code_lines language) (by decide)]
      have := le_trans (List.countP_le_length (fun m => m.type = "NESTED_LOOPS"))
        (check_nested_loops_length a)
      omega
    · simp only [List.countP_append]
      rw [countP_eq_zero_of_types _ "NESTED_LOOPS" _ (check_nested_loops_types a) (by decide),
        countP_eq_zero_of_types _ "LONG_FUNCTION" _ (check_long_functions_types a) (by decide),
        countP_eq_zero_of_types _ "UNUSED_VARIABLE" _ (check_unused_variables_types code_lines language) (by decide),
        countP_eq_zero_of_types _ "DEEP_INDENTATION" _ (check_deep_indentation_types code_lines language) (by decide),
        countP_eq_zero_of_types _ "MAGIC_NUMBERS" _ (check_magic_numbers_types code_lines language) (by decide)]
      have := le_trans (List.countP_le_length (fun m => m.type = "TOO_MANY_CONDITIONS"))
        (check_too_many_conditions_length a)
      omega
    · simp only [List.countP_append]
      rw [countP_eq_zero_of_types _ "NESTED_LOOPS" _ (check_nested_loops_types a) (by decide),
        countP_eq_zero_of_types _ "TOO_MANY_CONDITIONS" _ (check_too_many_conditions_types a) (by decide),
        countP_eq_zero_of_types _ "UNUSED_VARIABLE" _ (check_unused_variables_types code_lines language) (by decide),
        countP_eq_zero_of_types _ "DEEP_INDENTATION" _ (check_deep_indentation_types code_lines language) (by decide),
        countP_eq_zero_of_types _ "MAGIC_NUMBERS" _ (check_magic_numbers_types code_lines language) (by decide)]
      have := le_trans (List.countP_le_length (fun m => m.type = "LONG_FUNCTION"))
        (check_long_functions_length a)
      omega
    · simp only [List.countP_append]
      rw [countP_eq_zero_of_types _ "NESTED_LOOPS" _ (check_nested_loops_types a) (by decide),
        countP_eq_zero_of_types _ "TOO_MANY_CONDITIONS" _ (check_too_many_conditions_types a) (by decide),
        countP_eq_zero_of_types _ "LONG_FUNCTION" _ (check_long_functions_types a) (by decide),
        countP_eq_zero_of_types _ "UNUSED_VARIABLE" _ (check_unused_variables_types code_lines language) (by decide),
        countP_eq_zero_of_types _ "MAGIC_NUMBERS" _ (check_magic_numbers_types code_lines language) (by decide)]
      have := le_trans (List.countP_le_length (fun m => m.type = "DEEP_INDENTATION"))
        (check_deep_indentation_length code_lines language)
      omega
    · simp only [List.countP_append]
      rw [countP_eq_zero_of_types _ "NESTED_LOOPS" _ (check_nested_loops_types a) (by decide),
        countP_eq_zero_of_types _ "TOO_MANY_CONDITIONS" _ (check_too_many_conditions_types a) (by decide),
        countP_eq_zero_of_types _ "LONG_FUNCTION" _ (check_long_functions_types a) (by decide),
        countP_eq_zero_of_types _ "UNUSED_VARIABLE" _ (check_unused_variables_types code_lines language) (by decide),
        countP_eq_zero_of_types _ "DEEP_INDENTATION" _ (check_deep_indentation_types code_lines language) (by decide)]
      have := le_trans (List.countP_le_length (fun m => m.type = "MAGIC_NUMBERS"))
        (check_magic_numbers_length code_lines language)
      omega

/-- **C5 (counterexample).**  The claim says input of up to 1,048,576
characters is accepted.  A 10,001-character body is well under that bound
yet both analysis endpoints reject it: their guard is
`len(code) > 10000`. -/
theorem claim_C5_counterexample :
    c5_code.length ≤ 1048576 ∧
    analyze_old_gate c5_code = some "Code too large (max 10000 characters)" ∧
    analyze_endpoint_gate c5_code = some "Code too large (max 10000 characters)" := by
  have hlen : c5_code.length = 10001 := by
    have hd : c5_code.data = List.replicate 10001 'a' := rfl
    calc c5_code.length = c5_code.data.length := rfl
      _ = 10001 := by rw [hd, List.length_replicate]
  have hne : ¬ (c5_code = "") := by
    intro h
    rw [h] at hlen
    simp at hlen
  refine ⟨by omega, ?_, ?_⟩ <;>
    · first
        | unfold analyze_old_gate
        | unfold analyze_endpoint_gate
      rw [if_neg hne, if_pos (by omega)]

/-- **C5 (amended).**  Both analysis endpoints accept a request body iff
it is non-empty and holds at most 10,000 characters; anything longer is
rejected before analysis ("Code too large (max 10000 characters)"). -/
theorem claim_C5_amended (code : String) :
    (analyze_old_gate code = none ↔ code ≠ "" ∧ code.length ≤ 10000) ∧
    (analyze_endpoint_gate code = none ↔ code ≠ "" ∧ code.length ≤ 10000) := by
  unfold analyze_old_gate analyze_endpoint_gate
  constructor <;>
  · split_ifs with h1 h2
    · simp [h1]
    · constructor
      · intro h; exact absurd h (by simp)
      · rintro ⟨-, hle⟩; omega
    · simp [h1, Nat.not_lt.mp h2]

/-- **C8.**  The claim says a beginner record with complexity `"O(n³)"`
(actual class 4, expected 2) gets the nonzero base mismatch
`min((4−2)/3, 1)`.  The code disagrees: the quadratic and higher keys of
`complexity_scores` (and of `expected_complexity`) are mojibake-corrupted
(`"O(nÂ³)"`), so the analyzer's real label `"O(n³)"` falls to the
`.get` default 1, the `actual > expected + 1` test fails, and the
mismatch is 0. -/
theorem claim_C8_mojibake_scores :
    calculate_complexity_mismatch c8_analysis "beginner" = 0 ∧
    complexity_map 3 = "O(n³)" ∧
    complexity_scores "O(n³)" = 1 ∧
    complexity_scores (expected_complexity "beginner") = 2 ∧
    complexity_scores "O(nÂ³)" = 4 := by
  refine ⟨?_, by decide, by decide, by decide, by decide⟩
  unfold calculate_complexity_mismatch
  simp [c8_analysis, expected_complexity, complexity_scores]

/-- **C2.**  The complexity label of every metrics record produced by
`analyze_code` (either language path, and the empty-input result) is
determined by its own loop counters exactly as claimed: no loops gives
`"O(1)"`, loops without nesting `"O(n)"`, nesting depth 2 `"O(n²)"`,
depth 3 `"O(n³)"` and anything else `"O(2ⁿ)"`. -/
theorem claim_C2_complexity_label (code_lines : List String) (language : String) :
    (analyze_code code_lines language).complexity =
      (if (analyze_code code_lines language).loops = 0 then "O(1)"
       else if (analyze_code code_lines language).nested_loops = 0 then "O(n)"
       else if (analyze_code code_lines language).max_nesting_depth = 2 then "O(n²)"
       else if (analyze_code code_lines language).max_nesting_depth = 3 then "O(n³)"
       else "O(2ⁿ)") := by
  have key : ∀ r : Analysis,
      r.complexity = estimate_complexity r.loops r.nested_loops r.max_nesting_depth →
      r.complexity =
        (if r.loops = 0 then "O(1)"
         else if r.nested_loops = 0 then "O(n)"
         else if r.max_nesting_depth = 2 then "O(n²)"
         else if r.max_nesting_depth = 3 then "O(n³)"
         else "O(2ⁿ)") := by
    intro r h
    rw [h]
    rfl
  by_cases hc : code_lines = []
  · rw [show analyze_code code_lines language = empty_analysis_result from by
      simp [analyze_code, hc]]
    exact key _ rfl
  · by_cases hl : language = "python"
    · rw [show analyze_code code_lines language = analyze_python code_lines from by
        simp [analyze_code, hc, hl]]
      exact key _ rfl
    · rw [show analyze_code code_lines language = analyze_c_cpp code_lines from by
        simp [analyze_code, hc, hl]]
      exact key _ rfl

theorem py_loop_nesting_update_metricsInv (a : Analysis) (ld' : Nat)
    (h : metricsInv a) : metricsInv (py_loop_nesting_update a ld') := by
  obtain ⟨h1, h2⟩ := h
  have hc : a.nested_loops = 0 ∨ 2 ≤ a.max_nesting_depth := by
    rcases Nat.eq_zero_or_pos a.nested_loops with hz | hp
    · exact Or.inl hz
    · exact Or.inr (h2 hp)
  unfold py_loop_nesting_update
  dsimp only
  split_ifs with hd <;> constructor <;> dsimp only <;> (try intro hpos) <;>
    rcases hc with hc | hc <;> omega

theorem c_loop_nesting_update_metricsInv (a : Analysis) (ld : Int)
    (h : metricsInv a) : metricsInv (c_loop_nesting_update a ld) := by
  obtain ⟨h1, h2⟩ := h
  have hc : a.nested_loops = 0 ∨ 2 ≤ a.max_nesting_depth := by
    rcases Nat.eq_zero_or_pos a.nested_loops with hz | hp
    · exact Or.inl hz
    · exact Or.inr (h2 hp)
  unfold c_loop_nesting_update
  dsimp only
  split_ifs with hd <;> constructor <;> dsimp only <;> (try intro hpos) <;>
    rcases hc with hc | hc <;> omega

theorem conditional_update_metricsInv (a : Analysis) (b : Bool)
    (h : metricsInv a) : metricsInv (conditional_update a b) := by
  unfold conditional_update
  dsimp only
  split_ifs <;> exact h

theorem py_assignment_update_metricsInv (a : Analysis) (line : String)
    (h : metricsInv a) : metricsInv (py_assignment_update a line) := by
  unfold py_assignment_update
  dsimp only
  split_ifs <;> exact h

theorem python_line_step_metricsInv (st : PyState) (line : String)
    (h : metricsInv st.analysis) : metricsInv (python_line_step st line).analysis := by
  unfold python_line_step
  dsimp only
  split_ifs with hA hB hL hC <;>
    first
      | exact h
      | (apply py_assignment_update_metricsInv
         first
           | exact h
           | (apply conditional_update_metricsInv; first
               | exact h
               | exact py_loop_nesting_update_metricsInv _ _ h)
           | exact py_loop_nesting_update_metricsInv _ _ h)

theorem c_token_step_metricsInv (st : CState) (t : String) (rest : List String)
    (h : metricsInv st.analysis) : metricsInv (c_token_step st t rest).analysis := by
  unfold c_token_step
  dsimp only
  split_ifs <;>
    first
      | exact h
      | exact c_loop_nesting_update_metricsInv _ _ h
      | exact conditional_update_metricsInv _ _ h
      | (split
         · exact h
         · split_ifs <;> exact h)

theorem c_token_loop_metricsInv (l : List String) :
    ∀ st : CState, metricsInv st.analysis → metricsInv (c_token_loop st l).analysis := by
  induction l with
  | nil => intro st h; exact h
  | cons t ts ih => intro st h; exact ih _ (c_token_step_metricsInv st t ts h)

/-- **C3.**  Every metrics record returned by `analyze_code` satisfies
`nested_loops ≤ loops`, and `max_nesting_depth ≥ 2` whenever
`nested_loops > 0` — on both language paths and on the empty input. -/
theorem claim_C3_metrics_invariant (code_lines : List String) (language : String) :
    (analyze_code code_lines language).nested_loops ≤ (analyze_code code_lines language).loops ∧
    (0 < (analyze_code code_lines language).nested_loops →
      2 ≤ (analyze_code code_lines language).max_nesting_depth) := by
  suffices h : metricsInv (analyze_code code_lines language) by exact h
  unfold analyze_code
  split_ifs
  · exact ⟨Nat.le_refl 0, by intro hlt; exact absurd hlt (by decide)⟩
  · unfold analyze_python
    exact foldl_preserve (fun s => metricsInv s.analysis) python_line_step
      python_line_step_metricsInv code_lines {}
      ⟨Nat.le_refl 0, by intro hlt; exact absurd hlt (by decide)⟩
  · unfold analyze_c_cpp
    exact c_token_loop_metricsInv _ {}
      ⟨Nat.le_refl 0, by intro hlt; exact absurd hlt (by decide)⟩

/-- **C9.**  The magic-numbers rule fires iff the count of
whitespace-split tokens parseable as a float and outside the allow-list
`{"0","1","2","10","100","1000"}` exceeds 3: a `MAGIC_NUMBERS` finding is
in the `detect_mistakes` output exactly when `magic_number_tokens`
collects more than 3 tokens.  (So 4 such tokens fire the rule and
allow-listed numbers alone never do.) -/
theorem claim_C9_magic_numbers (code_lines : List String) (language : String) (a : Analysis) :
    (∃ m ∈ detect_mistakes code_lines language a, m.type = "MAGIC_NUMBERS") ↔
      3 < (magic_number_tokens code_lines).length := by
  constructor
  · rintro ⟨m, hm, ht⟩
    unfold detect_mistakes at hm
    split_ifs at hm with hl
    · simp at hm
    · simp only [List.mem_append] at hm
      rcases hm with ((((hm | hm) | hm) | hm) | hm) | hm
      · rw [check_nested_loops_types a m hm] at ht
        exact absurd ht (by decide)
      · rw [check_too_many_conditions_types a m hm] at ht
        exact absurd ht (by decide)
      · rw [check_long_functions_types a m hm] at ht
        exact absurd ht (by decide)
      · rw [check_unused_variables_types code_lines language m hm] at ht
        exact absurd ht (by decide)
      · rw [check_deep_indentation_types code_lines language m hm] at ht
        exact absurd ht (by decide)
      · unfold check_magic_numbers at hm
        dsimp only at hm
        by_cases hcnt : (magic_number_tokens code_lines).length > thresholds_max_magic_numbers
        · exact hcnt
        · rw [if_neg hcnt] at hm
          simp at hm
  · intro hcnt
    have hl : ¬ (code_lines = []) := by
      intro h
      rw [h] at hcnt
      simp [magic_number_tokens] at hcnt
    have hmem : ∃ m ∈ check_magic_numbers code_lines language, m.type = "MAGIC_NUMBERS" := by
      unfold check_magic_numbers
      dsimp only
      rw [if_pos (show (magic_number_tokens code_lines).length > thresholds_max_magic_numbers
        from hcnt)]
      exact ⟨_, List.mem_singleton.mpr rfl, rfl⟩
    obtain ⟨m, hm, ht⟩ := hmem
    refine ⟨m, ?_, ht⟩
    unfold detect_mistakes
    rw [if_neg hl]
    simp only [List.mem_append]
    exact Or.inr hm

/-- The shape of `detect_ai_patterns` when no sub-score exceeds its
threshold: the initial result dict is returned unchanged. -/
theorem detect_ai_patterns_of_le (code_lines : List String) (language : String)
    (analysis : Analysis) (skill_level : String)
    (h1 : calculate_comment_ratio code_lines language ≤ thresholds_comment_ratio)
    (h2 : calculate_perfection_score code_lines language ≤ thresholds_perfection_score)
    (h3 : calculate_complexity_mismatch analysis skill_level ≤ thresholds_complexity_mismatch)
    (h4 : calculate_pattern_repetition code_lines ≤ thresholds_pattern_repetition) :
    detect_ai_patterns code_lines language analysis skill_level =
      { is_suspicious := false, confidence := 0, detected_patterns := [],
        explanations := [], recommendations := [] } := by
  unfold detect_ai_patterns
  dsimp only
  rw [if_neg (not_lt.mpr h1), if_neg (not_lt.mpr h2), if_neg (not_lt.mpr h3),
    if_neg (not_lt.mpr h4)]
  simp

/-- **C10.**  When no sub-score exceeds its threshold,
`detect_ai_patterns` returns `is_suspicious = false`, confidence exactly
0, and empty pattern and recommendation lists — the weighted sum is never
computed on that path. -/
theorem claim_C10_no_threshold_no_confidence (code_lines : List String) (language : String)
    (analysis : Analysis) (skill_level : String)
    (h1 : calculate_comment_ratio code_lines language ≤ thresholds_comment_ratio)
    (h2 : calculate_perfection_score code_lines language ≤ thresholds_perfection_score)
    (h3 : calculate_complexity_mismatch analysis skill_level ≤ thresholds_complexity_mismatch)
    (h4 : calculate_pattern_repetition code_lines ≤ thresholds_pattern_repetition) :
    (detect_ai_patterns code_lines language analysis skill_level).is_suspicious = false ∧
    (detect_ai_patterns code_lines language analysis skill_level).confidence = 0 ∧
    (detect_ai_patterns code_lines language analysis skill_level).detected_patterns = [] ∧
    (detect_ai_patterns code_lines language analysis skill_level).recommendations = [] := by
  rw [detect_ai_patterns_of_le code_lines language analysis skill_level h1 h2 h3 h4]
  exact ⟨rfl, rfl, rfl, rfl⟩

theorem comment_ratio_range (code_lines : List String) (language : String) :
    0 ≤ calculate_comment_ratio code_lines language ∧
      calculate_comment_ratio code_lines language ≤ 1 := by
  unfold calculate_comment_ratio
  dsimp only
  by_cases h : code_lines.length = 0
  · rw [if_pos h]
    exact ⟨le_refl 0, zero_le_one⟩
  · rw [if_neg h]
    constructor
    · positivity
    · rw [div_le_one (by exact_mod_cast Nat.pos_of_ne_zero h)]
      exact_mod_cast List.countP_le_length _

theorem check_variable_naming_range (code_lines : List String) (language : String) :
    0 ≤ check_variable_naming code_lines language ∧
      check_variable_naming code_lines language ≤ 1 := by
  unfold check_variable_naming
  dsimp only
  by_cases h : code_lines.filterMap (fun line =>
      if strContainsChar line '=' && !(strContainsSub line "==") then
        (pySplit (pyStrip (beforeFirstEq line))).getLast?
      else none) = []
  · rw [if_pos h]
    exact ⟨le_refl 0, zero_le_one⟩
  · rw [if_neg h]
    constructor
    · positivity
    · rw [div_le_one (by exact_mod_cast List.length_pos.mpr h)]
      exact_mod_cast List.countP_le_length _

theorem check_function_structure_range (code_lines : List String) (language : String) :
    0 ≤ check_function_structure code_lines language ∧
      check_function_structure code_lines language ≤ 1 := by
  unfold check_function_structure
  dsimp only
  by_cases h : code_lines.filter (fun line =>
      re_search false (if language = "python" then python_func_pattern else c_func_pattern)
        line) = []
  · rw [if_pos h]
    exact ⟨le_refl 0, zero_le_one⟩
  · rw [if_neg h]
    constructor
    · positivity
    · rw [div_le_one (by exact_mod_cast List.length_pos.mpr h)]
      exact_mod_cast List.countP_le_length _

theorem check_formatting_consistency_range (code_lines : List String) :
    0 ≤ check_formatting_consistency code_lines ∧
      check_formatting_consistency code_lines ≤ 1 := by
  unfold check_formatting_consistency
  dsimp only
  split_ifs with h1 h2
  · exact ⟨le_refl 0, zero_le_one⟩
  · exact ⟨le_refl 0, zero_le_one⟩
  · have hv : (0 : ℚ) ≤
        (((code_lines.filter (fun line => pyStrip line ≠ "")).map
          (fun line => ((line.toList.length - (pyLstripList line.toList).length : Nat) : ℚ))).map
            (fun x => (x - ((code_lines.filter (fun line => pyStrip line ≠ "")).map
              (fun line => ((line.toList.length - (pyLstripList line.toList).length : Nat) : ℚ))).sum /
              (((code_lines.filter (fun line => pyStrip line ≠ "")).map
                (fun line => ((line.toList.length - (pyLstripList line.toList).length : Nat) : ℚ))).length : ℚ)) ^ 2)).sum := by
      apply List.sum_nonneg
      intro x hx
      obtain ⟨y, -, rfl⟩ := List.mem_map.mp hx
      positivity
    constructor
    · have hmin : min ((((code_lines.filter (fun line => pyStrip line ≠ "")).map
          (fun line => ((line.toList.length - (pyLstripList line.toList).length : Nat) : ℚ))).map
            (fun x => (x - ((code_lines.filter (fun line => pyStrip line ≠ "")).map
              (fun line => ((line.toList.length - (pyLstripList line.toList).length : Nat) : ℚ))).sum /
              (((code_lines.filter (fun line => pyStrip line ≠ "")).map
                (fun line => ((line.toList.length - (pyLstripList line.toList).length : Nat) : ℚ))).length : ℚ)) ^ 2)).sum /
          (((code_lines.filter (fun line => pyStrip line ≠ "")).map
            (fun line => ((line.toList.length - (pyLstripList line.toList).length : Nat) : ℚ))).length : ℚ) / 4) 1 ≤ 1 :=
        min_le_right _ _
      linarith
    · have hmin : (0 : ℚ) ≤ min ((((code_lines.filter (fun line => pyStrip line ≠ "")).map
          (fun line => ((line.toList.length - (pyLstripList line.toList).length : Nat) : ℚ))).map
            (fun x => (x - ((code_lines.filter (fun line => pyStrip line ≠ "")).map
              (fun line => ((line.toList.length - (pyLstripList line.toList).length : Nat) : ℚ))).sum /
              (((code_lines.filter (fun line => pyStrip line ≠ "")).map
                (fun line => ((line.toList.length - (pyLstripList line.toList).length : Nat) : ℚ))).length : ℚ)) ^ 2)).sum /
          (((code_lines.filter (fun line => pyStrip line ≠ "")).map
            (fun line => ((line.toList.length - (pyLstripList line.toList).length : Nat) : ℚ))).length : ℚ) / 4) 1 := by
        apply le_min _ zero_le_one
        positivity
      linarith

theorem calculate_perfection_score_range (code_lines : List String) (language : String) :
    0 ≤ calculate_perfection_score code_lines language ∧
      calculate_perfection_score code_lines language ≤ 1 := by
  obtain ⟨a1, a2⟩ := check_variable_naming_range code_lines language
  obtain ⟨b1, b2⟩ := check_function_structure_range code_lines language
  obtain ⟨c1, c2⟩ := check_formatting_consistency_range code_lines
  unfold calculate_perfection_score
  constructor
  · positivity
  · rw [div_le_one (by norm_num)]
    linarith

theorem calculate_complexity_mismatch_range (analysis : Analysis) (skill_level : String) :
    0 ≤ calculate_complexity_mismatch analysis skill_level ∧
      calculate_complexity_mismatch analysis skill_level ≤ 1 := by
  unfold calculate_complexity_mismatch
  dsimp only
  set B := (if complexity_scores analysis.complexity >
        complexity_scores (expected_complexity skill_level) + 1 then
      min (((complexity_scores analysis.complexity -
        complexity_scores (expected_complexity skill_level) : Int) : ℚ) / 3) 1
    else 0) with hB
  have hbase : (0 : ℚ) ≤ B := by
    rw [hB]
    split_ifs with h
    · apply le_min _ zero_le_one
      have hz : (0 : Int) ≤ complexity_scores analysis.complexity -
          complexity_scores (expected_complexity skill_level) := by omega
      exact div_nonneg (by exact_mod_cast hz) (by norm_num)
    · exact le_refl 0
  constructor
  · apply le_min _ zero_le_one
    split_ifs <;> linarith
  · exact min_le_right _ _

theorem calculate_pattern_repetition_range (code_lines : List String) :
    0 ≤ calculate_pattern_repetition code_lines ∧
      calculate_pattern_repetition code_lines ≤ 1 := by
  unfold calculate_pattern_repetition
  dsimp only
  split_ifs with h1 h2
  · exact ⟨le_refl 0, zero_le_one⟩
  · exact ⟨le_refl 0, zero_le_one⟩
  · have hs : (0 : ℚ) ≤
        (((ai_patterns.map (fun p => code_lines.countP (fun line => re_search false p line))).filter
          (fun c => c ≠ 0)).map (fun c => ((c - 1 : Nat) : ℚ) * (1/5))).sum := by
      apply List.sum_nonneg
      intro x hx
      obtain ⟨c, -, rfl⟩ := List.mem_map.mp hx
      positivity
    exact ⟨le_min hs zero_le_one, min_le_right _ _⟩

/-- `_calculate_confidence` written as the weighted sum of the claims. -/
theorem calculate_confidence_eq (s1 s2 s3 s4 : ℚ) :
    calculate_confidence s1 s2 s3 s4 =
      min ((3/10) * s1 + (3/10) * s2 + (1/4) * s3 + (3/20) * s4) 1 := by
  unfold calculate_confidence
  dsimp only [List.zip, List.zipWith, List.foldl]
  congr 1
  ring

/-- **C6 (amended).**  `is_suspicious` is true iff `detected_patterns` is
non-empty; the returned confidence equals the clamped weighted sum
`min(0.30·cr + 0.30·ps + 0.25·cm + 0.15·pr, 1)` only when some sub-score
exceeded its threshold, and is exactly 0 otherwise; the four sub-scores
all lie in [0, 1]. -/
theorem claim_C6_amended (code_lines : List String) (language : String)
    (analysis : Analysis) (skill_level : String) :
    ((detect_ai_patterns code_lines language analysis skill_level).is_suspicious ↔
      (detect_ai_patterns code_lines language analysis skill_level).detected_patterns ≠ []) ∧
    ((detect_ai_patterns code_lines language analysis skill_level).is_suspicious = true →
      (detect_ai_patterns code_lines language analysis skill_level).confidence =
        min ((3/10) * calculate_comment_ratio code_lines language +
             (3/10) * calculate_perfection_score code_lines language +
             (1/4) * calculate_complexity_mismatch analysis skill_level +
             (3/20) * calculate_pattern_repetition code_lines) 1) ∧
    ((detect_ai_patterns code_lines language analysis skill_level).is_suspicious = false →
      (detect_ai_patterns code_lines language analysis skill_level).confidence = 0) ∧
    (0 ≤ calculate_comment_ratio code_lines language ∧
      calculate_comment_ratio code_lines language ≤ 1) ∧
    (0 ≤ calculate_perfection_score code_lines language ∧
      calculate_perfection_score code_lines language ≤ 1) ∧
    (0 ≤ calculate_complexity_mismatch analysis skill_level ∧
      calculate_complexity_mismatch analysis skill_level ≤ 1) ∧
    (0 ≤ calculate_pattern_repetition code_lines ∧
      calculate_pattern_repetition code_lines ≤ 1) := by
  refine ⟨?_, ?_, ?_, comment_ratio_range _ _, calculate_perfection_score_range _ _,
    calculate_complexity_mismatch_range _ _, calculate_pattern_repetition_range _⟩ <;>
  · unfold detect_ai_patterns
    dsimp only
    split_ifs <;> simp_all [calculate_confidence_eq]

/-- **C7.**  `_calculate_confidence` is monotone non-decreasing in each
sub-score with the others fixed, and the confidence returned by
`detect_ai_patterns` always lies in [0, 1]. -/
theorem claim_C7_confidence_monotone_bounded :
    (∀ s1 s2 s3 s4 t1 t2 t3 t4 : ℚ, s1 ≤ t1 → s2 ≤ t2 → s3 ≤ t3 → s4 ≤ t4 →
      calculate_confidence s1 s2 s3 s4 ≤ calculate_confidence t1 t2 t3 t4) ∧
    (∀ (code_lines : List String) (language : String) (analysis : Analysis)
        (skill_level : String),
      0 ≤ (detect_ai_patterns code_lines language analysis skill_level).confidence ∧
        (detect_ai_patterns code_lines language analysis skill_level).confidence ≤ 1) := by
  constructor
  · intro s1 s2 s3 s4 t1 t2 t3 t4 h1 h2 h3 h4
    rw [calculate_confidence_eq, calculate_confidence_eq]
    apply min_le_min _ le_rfl
    gcongr <;> norm_num
  · intro code_lines language analysis skill_level
    obtain ⟨a1, a2⟩ := comment_ratio_range code_lines language
    obtain ⟨b1, b2⟩ := calculate_perfection_score_range code_lines language
    obtain ⟨c1, c2⟩ := calculate_complexity_mismatch_range analysis skill_level
    obtain ⟨d1, d2⟩ := calculate_pattern_repetition_range code_lines
    unfold detect_ai_patterns
    dsimp only
    split_ifs <;> refine ⟨?_, ?_⟩ <;> dsimp only <;>
      first
        | exact le_refl 0
        | exact zero_le_one
        | (rw [calculate_confidence_eq]
           exact min_le_right _ _)
        | (rw [calculate_confidence_eq]
           refine le_min ?_ zero_le_one
           have m1 := mul_nonneg (show (0:ℚ) ≤ 3/10 from by norm_num) a1
           have m2 := mul_nonneg (show (0:ℚ) ≤ 3/10 from by norm_num) b1
           have m3 := mul_nonneg (show (0:ℚ) ≤ 1/4 from by norm_num) c1
           have m4 := mul_nonneg (show (0:ℚ) ≤ 3/20 from by norm_num) d1
           linarith)

/-- Witness for C7 at concrete inputs. -/
theorem claim_C7_witness :
    calculate_confidence 0 0 0 0 ≤ calculate_confidence 1 1 1 1 ∧
    0 ≤ (detect_ai_patterns [] "python" {} "beginner").confidence := by
  exact ⟨claim_C7_confidence_monotone_bounded.1 0 0 0 0 1 1 1 1
      (by norm_num) (by norm_num) (by norm_num) (by norm_num),
    (claim_C7_confidence_monotone_bounded.2 [] "python" {} "beginner").1⟩

theorem c6_variable_naming : check_variable_naming c6_lines "python" = 0 := by
  unfold check_variable_naming
  dsimp only
  rw [if_pos (by decide)]

theorem c6_function_structure : check_function_structure c6_lines "python" = 0 := by
  unfold check_function_structure
  dsimp only
  rw [if_pos (by decide)]


/-- When every non-blank line has the same leading-space count, the
formatting-consistency score is exactly 1 (variance 0). -/
theorem formatting_consistency_const (lines : List String) (k : Nat)
    (h3 : ¬ lines.length < 3)
    (hne : ¬ (lines.filter (fun line => pyStrip line ≠ "") = []))
    (hk : ∀ line ∈ lines.filter (fun line => pyStrip line ≠ ""),
      line.toList.length - (pyLstripList line.toList).length = k) :
    check_formatting_consistency lines = 1 := by
  unfold check_formatting_consistency
  dsimp only
  rw [if_neg h3]
  have hn0 : (lines.filter (fun line => pyStrip line ≠ "")).length ≠ 0 := by
    intro h
    exact hne (List.length_eq_zero.mp h)
  have hmap : (lines.filter (fun line => pyStrip line ≠ "")).map
      (fun line => ((line.toList.length - (pyLstripList line.toList).length : Nat) : ℚ)) =
      List.replicate (lines.filter (fun line => pyStrip line ≠ "")).length (k : ℚ) := by
    rw [List.map_congr_left (g := fun _ => (k : ℚ)) (fun a ha => by rw [hk a ha])]
    simp
  rw [hmap]
  have hrep : ¬ (List.replicate
      (lines.filter (fun line => pyStrip line ≠ "")).length (k : ℚ) = []) := by
    intro hcontra
    apply hn0
    simpa using congrArg List.length hcontra
  rw [if_neg hrep]
  rw [List.length_replicate, List.sum_replicate, nsmul_eq_mul,
    mul_div_cancel_left₀ _ (by exact_mod_cast hn0 : ((lines.filter
      (fun line => pyStrip line ≠ "")).length : ℚ) ≠ 0),
    List.map_replicate]
  simp

theorem c6_formatting : check_formatting_consistency c6_lines = 1 :=
  formatting_consistency_const c6_lines 0 (by decide) (by decide) (by decide)

theorem c6_perfection : calculate_perfection_score c6_lines "python" = 1/3 := by
  unfold calculate_perfection_score
  rw [c6_variable_naming, c6_function_structure, c6_formatting]
  norm_num

theorem c6_comment_ratio : calculate_comment_ratio c6_lines "python" = 1/5 := by
  unfold calculate_comment_ratio
  dsimp only
  rw [if_neg (by decide)]
  rw [div_eq_div_iff (by exact_mod_cast (by decide : ¬ (c6_lines.length = 0)) : 
        (c6_lines.length : ℚ) ≠ 0) (by norm_num : (5 : ℚ) ≠ 0)]
  norm_cast

theorem c6_mismatch :
    calculate_complexity_mismatch (analyze_code c6_lines "python") "beginner" = 0 := by
  have ha : analyze_code c6_lines "python" = { total_lines := 10 } := by decide
  rw [ha]
  unfold calculate_complexity_mismatch
  dsimp only
  rw [if_neg (by decide), if_neg (by decide), if_neg (by decide)]
  exact min_eq_left zero_le_one

theorem c6_repetition : calculate_pattern_repetition c6_lines = 0 := by
  decide

/-- **C6 (counterexample).**  The claim says the returned confidence
always equals the clamped weighted sum.  On `c6_lines` the sub-scores are
(1/5, 1/3, 0, 0) — all below their thresholds — so the code returns
confidence 0, while the claimed weighted sum is min(4/25, 1) = 4/25. -/
theorem claim_C6_counterexample :
    (detect_ai_patterns c6_lines "python" (analyze_code c6_lines "python")
      "beginner").confidence = 0 ∧
    (detect_ai_patterns c6_lines "python" (analyze_code c6_lines "python")
      "beginner").confidence ≠
      min ((3/10) * calculate_comment_ratio c6_lines "python" +
           (3/10) * calculate_perfection_score c6_lines "python" +
           (1/4) * calculate_complexity_mismatch (analyze_code c6_lines "python") "beginner" +
           (3/20) * calculate_pattern_repetition c6_lines) 1 := by
  have hd := detect_ai_patterns_of_le c6_lines "python" (analyze_code c6_lines "python")
    "beginner"
    (by rw [c6_comment_ratio]; norm_num [thresholds_comment_ratio])
    (by rw [c6_perfection]; norm_num [thresholds_perfection_score])
    (by rw [c6_mismatch]; norm_num [thresholds_complexity_mismatch])
    (by rw [c6_repetition]; norm_num [thresholds_pattern_repetition])
  rw [hd, c6_comment_ratio, c6_perfection, c6_mismatch, c6_repetition]
  refine ⟨rfl, ?_⟩
  dsimp only
  rw [min_eq_left (by norm_num)]
  norm_num

/-- Witness for C10 at a concrete input whose comment ratio is strictly
positive yet below every threshold. -/
theorem claim_C10_witness :
    (detect_ai_patterns c6_lines "python" (analyze_code c6_lines "python")
      "beginner").is_suspicious = false ∧
    (detect_ai_patterns c6_lines "python" (analyze_code c6_lines "python")
      "beginner").confidence = 0 ∧
    (detect_ai_patterns c6_lines "python" (analyze_code c6_lines "python")
      "beginner").detected_patterns = [] ∧
    (detect_ai_patterns c6_lines "python" (analyze_code c6_lines "python")
      "beginner").recommendations = [] ∧
    0 < calculate_comment_ratio c6_lines "python" := by
  have h := claim_C10_no_threshold_no_confidence c6_lines "python"
    (analyze_code c6_lines "python") "beginner"
    (by rw [c6_comment_ratio]; norm_num [thresholds_comment_ratio])
    (by rw [c6_perfection]; norm_num [thresholds_perfection_score])
    (by rw [c6_mismatch]; norm_num [thresholds_complexity_mismatch])
    (by rw [c6_repetition]; norm_num [thresholds_pattern_repetition])
  exact ⟨h.1, h.2.1, h.2.2.1, h.2.2.2, by rw [c6_comment_ratio]; norm_num⟩

/-- Witness for C3 at a concrete input with a nested loop. -/
theorem claim_C3_witness :
    0 < (analyze_code ["for i in x:", "    for j in y:"] "python").nested_loops ∧
    2 ≤ (analyze_code ["for i in x:", "    for j in y:"] "python").max_nesting_depth := by
  exact ⟨by decide,
    (claim_C3_metrics_invariant ["for i in x:", "    for j in y:"] "python").2 (by decide)⟩

/-- Witness for the amended C6 at a concrete input. -/
theorem claim_C6_witness :
    (detect_ai_patterns c6_lines "python" (analyze_code c6_lines "python")
      "beginner").confidence = 0 := by
  have hd := detect_ai_patterns_of_le c6_lines "python" (analyze_code c6_lines "python")
    "beginner"
    (by rw [c6_comment_ratio]; norm_num [thresholds_comment_ratio])
    (by rw [c6_perfection]; norm_num [thresholds_perfection_score])
    (by rw [c6_mismatch]; norm_num [thresholds_complexity_mismatch])
    (by rw [c6_repetition]; norm_num [thresholds_pattern_repetition])
  exact (claim_C6_amended c6_lines "python" (analyze_code c6_lines "python") "beginner").2.2.1
    (by rw [hd])
